import Mathlib

/-!
Verification of the cookie-management core of the `cookiejar` repository
(background message handlers, cookie URL inference, Set-Cookie header
serialization, and the bulk-operation fan-out/fan-in coordinator).

The definitions below are a shallow embedding of the TypeScript source:
`src/utils/cookieUtils.ts` (the `Cookie` interface and `getCookieUrl`),
`src/background.ts` (the `getCookies`, `deleteAllCookies` and
`importCookies` message handlers), and
`src/popup/components/ImportExport.tsx` (`handleCopyAsSetCookie`).
-/

namespace CookieJar

/-- The `sameSite` field of the `Cookie` interface:
`sameSite?: 'strict' | 'lax' | 'none'`. -/
inductive SameSite where
  | strict
  | lax
  | none
deriving DecidableEq, Repr

/-- The `Cookie` interface from `src/utils/cookieUtils.ts`.  Optional fields
(`sameSite?`, `expirationDate?`, `url?`) become `Option`; `expirationDate`
(a JS number of seconds since epoch) is embedded as `Int`. -/
structure Cookie where
  name : String
  value : String
  domain : String
  path : String
  secure : Bool
  httpOnly : Bool
  sameSite : Option SameSite
  expirationDate : Option Int
  url : Option String
deriving DecidableEq, Repr

/-- Embedding of JS `s.startsWith('.')`: the first character is `'.'`. -/
def jsStartsWithDot (s : String) : Bool :=
  match s.data with
  | [] => false
  | c :: _ => c = '.'

/-- `getCookieUrl` from `src/utils/cookieUtils.ts`:
```
const protocol = cookie.secure ? 'https://' : 'http://';
const domain = cookie.domain.startsWith('.') ? cookie.domain : `.${cookie.domain}`;
return `${protocol}${domain}${cookie.path}`;
```
-/
def getCookieUrl (cookie : Cookie) : String :=
  let protocol := if cookie.secure then "https://" else "http://"
  let domain := if jsStartsWithDot cookie.domain then cookie.domain else "." ++ cookie.domain
  protocol ++ domain ++ cookie.path

/-! ### Embedding of the JS builtins used by `handleCopyAsSetCookie` -/

/-- Characters left unescaped by JS `encodeURIComponent`:
`A-Z a-z 0-9 - _ . ! ~ * ' ( )`. -/
def isUriUnescaped (c : Char) : Bool :=
  let n := c.toNat
  (65 ≤ n && n ≤ 90) || (97 ≤ n && n ≤ 122) || (48 ≤ n && n ≤ 57) ||
  n = 45 || n = 95 || n = 46 || n = 33 || n = 126 || n = 42 || n = 39 || n = 40 || n = 41

/-- Uppercase hexadecimal digit for `n < 16`. -/
def hexDigit (n : Nat) : Char :=
  if n < 10 then Char.ofNat (48 + n) else Char.ofNat (55 + n)

/-- The UTF-8 bytes of the code point `n`, as natural numbers. -/
def utf8Bytes (n : Nat) : List Nat :=
  if n < 0x80 then [n]
  else if n < 0x800 then [0xC0 + n / 64, 0x80 + n % 64]
  else if n < 0x10000 then [0xE0 + n / 4096, 0x80 + n / 64 % 64, 0x80 + n % 64]
  else [0xF0 + n / 262144, 0x80 + n / 4096 % 64, 0x80 + n / 64 % 64, 0x80 + n % 64]

/-- Percent-escape of a single byte, e.g. `%2F`. -/
def percentByte (b : Nat) : String :=
  String.mk ['%', hexDigit (b / 16), hexDigit (b % 16)]

/-- Embedding of JS `encodeURIComponent`: unescaped characters pass through,
every other character is replaced by the percent-escapes of its UTF-8 bytes. -/
def encodeURIComponent (s : String) : String :=
  String.join (s.data.map fun c =>
    if isUriUnescaped c then String.mk [c]
    else String.join ((utf8Bytes c.toNat).map percentByte))

/-- Decimal string of `n`, left-padded with zeros to width `w`. -/
def padZeros (w : Nat) (n : Nat) : String :=
  let s := toString n
  String.mk (List.replicate (w - s.data.length) '0') ++ s

/-- Three-letter English weekday name, `0 = Sun`. -/
def weekdayName (w : Nat) : String :=
  [ "Sun", "Mon", "Tue", "Wed", "Thu", "Fri", "Sat" ].getD w "Sun"

/-- Three-letter English month name, `1 = Jan`. -/
def monthName (m : Nat) : String :=
  [ "Jan", "Feb", "Mar", "Apr", "May", "Jun",
    "Jul", "Aug", "Sep", "Oct", "Nov", "Dec" ].getD (m - 1) "Jan"

/-- Proleptic-Gregorian civil date `(year, month, day)` of a day count
relative to 1970-01-01 (the standard era-based conversion, matching the
calendar arithmetic of the JS `Date` object). -/
def civilFromDays (z : Int) : Int × Nat × Nat :=
  let z' := z + 719468
  let era := z'.fdiv 146097
  let doe := (z' - era * 146097).toNat
  let yoe := (doe - doe / 1460 + doe / 36524 - doe / 146096) / 365
  let doy := doe - (365 * yoe + yoe / 4 - yoe / 100)
  let mp := (5 * doy + 2) / 153
  let d := doy - (153 * mp + 2) / 5 + 1
  let m := if mp < 10 then mp + 3 else mp - 9
  ((yoe : Int) + era * 400 + (if m ≤ 2 then 1 else 0), m, d)

/-- Decimal rendering of a (possibly negative) year, padded to 4 digits. -/
def yearString (y : Int) : String :=
  if y < 0 then "-" ++ padZeros 4 (-y).toNat else padZeros 4 y.toNat

/-- Embedding of JS `Date.prototype.toUTCString` for a timestamp of `ms`
milliseconds since the Unix epoch:
`"Www, DD Mon YYYY HH:MM:SS GMT"`. -/
def jsDateToUTCString (ms : Int) : String :=
  let day := ms.fdiv 86400000
  let msod := (ms - day * 86400000).toNat
  let wd := ((day + 4).fmod 7).toNat
  let ymd := civilFromDays day
  weekdayName wd ++ ", " ++ padZeros 2 ymd.2.2 ++ " " ++ monthName ymd.2.1 ++ " " ++
    yearString ymd.1 ++ " " ++ padZeros 2 (msod / 3600000) ++ ":" ++
    padZeros 2 (msod / 60000 % 60) ++ ":" ++ padZeros 2 (msod / 1000 % 60) ++ " GMT"

/-- The string of a `sameSite` value as it appears in the TS union type. -/
def sameSiteStr : SameSite → String
  | SameSite.strict => "strict"
  | SameSite.lax => "lax"
  | SameSite.none => "none"

/-- Embedding of `sameSite.charAt(0).toUpperCase() + sameSite.slice(1)`. -/
def capitalizeFirst (s : String) : String :=
  match s.data with
  | [] => ""
  | c :: cs => String.mk (c.toUpper :: cs)

/-- `handleCopyAsSetCookie` from `src/popup/components/ImportExport.tsx`,
the part that builds the `Set-Cookie` header string.  Each `if (x)` of the
source is a JS truthiness test: for the string fields it means "non-empty",
for the optional `sameSite` it means "present", and for the numeric
`expirationDate` it means "present and non-zero". -/
def serializeSetCookie (c : Cookie) : String :=
  let s := c.name ++ "=" ++ encodeURIComponent c.value
  let s := if c.domain = "" then s else s ++ ("; Domain=" ++ c.domain)
  let s := if c.path = "" then s else s ++ ("; Path=" ++ c.path)
  let s := if c.secure then s ++ "; Secure" else s
  let s := if c.httpOnly then s ++ "; HttpOnly" else s
  let s := match c.sameSite with
    | Option.none => s
    | Option.some ss => s ++ ("; SameSite=" ++ capitalizeFirst (sameSiteStr ss))
  match c.expirationDate with
  | Option.none => s
  | Option.some e => if e = 0 then s else s ++ ("; Expires=" ++ jsDateToUTCString (e * 1000))

/-! ### The bulk-operation coordinator of `src/background.ts`

`deleteAllCookies` and `importCookies` fire one asynchronous Storage
Backend call per record; each callback increments a shared `completed`
counter, pushes its per-item outcome onto `results`, and the handler calls
`sendResponse` exactly when `completed === total`.  Callbacks may complete
in any order, so the run is modelled as a fold over an arrival sequence
`arr` of per-item outcomes, an arbitrary permutation of the per-record
outcomes. -/

/-- One entry of the `results` array:
`{ success: boolean; name?: string; error?: string }`. -/
structure ItemResult where
  success : Bool
  name : String
  error : Option String
deriving DecidableEq, Repr

/-- A value passed to `sendResponse` by the handlers modelled here. -/
inductive Response where
  | error (msg : String)
  | messageOnly (msg : String)
  | bulk (msg : String) (results : List ItemResult)
deriving DecidableEq, Repr

/-- Arguments of a `chrome.cookies.remove` call. -/
structure RemoveArgs where
  url : String
  name : String
deriving DecidableEq, Repr

/-- The removal detail object a `chrome.cookies.remove` callback receives
(when not null). -/
structure RemoveDetail where
  url : String
  name : String
deriving DecidableEq, Repr

/-- Arguments of a `chrome.cookies.set` call as built by the handlers. -/
structure SetCallArgs where
  url : String
  name : String
  value : String
  domain : Option String
  path : String
  secure : Bool
  httpOnly : Bool
  expirationDate : Option Int
  sameSite : Option SameSite
deriving DecidableEq, Repr

/-- A Storage Backend for `remove` calls: the callback's `details`
argument (null embedded as `none`). -/
def RemoveBackend := RemoveArgs → Option RemoveDetail

/-- A Storage Backend for `set` calls: the callback's cookie argument
(null embedded as `none`) together with `chrome.runtime.lastError?.message`. -/
def SetBackend := SetCallArgs → Option Cookie × Option String

/-- State of one bulk run: the shared `completed` counter, the `results`
array, and the `sendResponse` calls made so far. -/
structure BulkState where
  completed : Nat
  results : List ItemResult
  sent : List Response
deriving DecidableEq, Repr

/-- The aggregated response built at fan-in time, exactly as in the source:
`successfulDeletes`/`successfulImports` and the failed count are the
filtered lengths of `results`, folded into a message, sent together with
`results`. -/
def mkAggregate (mkMsg : Nat → Nat → Nat → String) (total : Nat)
    (results : List ItemResult) : Response :=
  Response.bulk
    (mkMsg total (results.filter (fun r => r.success)).length
      (results.filter (fun r => !r.success)).length)
    results

/-- One per-record callback of a bulk run: increment `completed`, push the
item's outcome, and if the counter has reached `total`, send the aggregate. -/
def bulkStep (mkMsg : Nat → Nat → Nat → String) (total : Nat)
    (st : BulkState) (item : ItemResult) : BulkState :=
  let completed := st.completed + 1
  let results := st.results ++ [item]
  if completed = total then
    ⟨completed, results, st.sent ++ [mkAggregate mkMsg total results]⟩
  else
    ⟨completed, results, st.sent⟩

/-- A bulk run over the arrival sequence `arr` of per-item outcomes. -/
def bulkDeliver (mkMsg : Nat → Nat → Nat → String) (total : Nat)
    (arr : List ItemResult) : BulkState :=
  arr.foldl (bulkStep mkMsg total) ⟨0, [], []⟩

/-- The message built by the `deleteAllCookies` aggregation. -/
def deleteMessage (total succ fail : Nat) : String :=
  "Successfully deleted " ++ toString succ ++ " of " ++ toString total ++ " cookies." ++
    (if fail > 0 then " " ++ toString fail ++ " failed." else "")

/-- The message built by the `importCookies` aggregation. -/
def importMessage (total succ fail : Nat) : String :=
  "Successfully imported " ++ toString succ ++ " of " ++ toString total ++ " cookies." ++
    (if fail > 0 then " " ++ toString fail ++ " failed." else "")

/-- The per-record outcome of `deleteAllCookies`: success iff the backend
reports a non-null `details`, otherwise failure with the fixed message. -/
def deleteOutcome (bd : RemoveBackend) (c : Cookie) : ItemResult :=
  match bd ⟨getCookieUrl c, c.name⟩ with
  | Option.some _ => ⟨true, c.name, Option.none⟩
  | Option.none => ⟨false, c.name, Option.some "Not found or could not delete"⟩

/-- The `chrome.cookies.remove` calls issued by `deleteAllCookies`
(none at all when the cookie list is empty — that case short-circuits). -/
def deleteAllCalls (cookies : List Cookie) : List RemoveArgs :=
  if cookies.length = 0 then []
  else cookies.map fun c => ⟨getCookieUrl c, c.name⟩

/-- The `sendResponse` calls of the `deleteAllCookies` handler, given the
cookies read from the store and the arrival sequence of callbacks. -/
def deleteAllResponses (cookies : List Cookie) (arr : List ItemResult) : List Response :=
  if cookies.length = 0 then [Response.messageOnly "No cookies to delete"]
  else (bulkDeliver deleteMessage cookies.length arr).sent

/-- Embedding of `hostname.replace(/^www\./, '')` (anchored, first match). -/
def stripLeadingWww (s : String) : String :=
  match s.data with
  | 'w' :: 'w' :: 'w' :: '.' :: rest => String.mk rest
  | _ => s

/-- The fallback domain used by `importCookies`:
`new URL(currentTabUrl).hostname.replace(/^www\./, '')`, with the
hostname of the active tab taken as input. -/
def importFallbackDomain (tabHostname : String) : String :=
  stripLeadingWww tabHostname

/-- The `chrome.cookies.set` argument built by `importCookies` for one
record: the URL is always inferred from the record with the fallback
substituted for an empty domain (`cookie.domain || fallback`), the `domain`
field is dropped when empty (`cookie.domain || undefined`), and an empty
`path` defaults to `'/'` (`cookie.path || '/'`). -/
def importSetCall (fallback : String) (c : Cookie) : SetCallArgs :=
  { url := getCookieUrl { c with domain := if c.domain = "" then fallback else c.domain }
    name := c.name
    value := c.value
    domain := if c.domain = "" then Option.none else Option.some c.domain
    path := if c.path = "" then "/" else c.path
    secure := c.secure
    httpOnly := c.httpOnly
    expirationDate := c.expirationDate
    sameSite := c.sameSite }

/-- The per-record outcome of `importCookies`: success iff the backend
returns a non-null cookie, otherwise failure with
`chrome.runtime.lastError?.message || 'Unknown error'`. -/
def importOutcome (bs : SetBackend) (fallback : String) (c : Cookie) : ItemResult :=
  match bs (importSetCall fallback c) with
  | (Option.some _, _) => ⟨true, c.name, Option.none⟩
  | (Option.none, lastErr) => ⟨false, c.name, Option.some (lastErr.getD "Unknown error")⟩

/-- The `chrome.cookies.set` calls issued by `importCookies`
(none when the import list is empty — that case short-circuits). -/
def importCalls (fallback : String) (cookies : List Cookie) : List SetCallArgs :=
  if cookies.length = 0 then []
  else cookies.map (importSetCall fallback)

/-- The `sendResponse` calls of the `importCookies` handler, given the
records to import and the arrival sequence of callbacks. -/
def importResponses (cookies : List Cookie) (arr : List ItemResult) : List Response :=
  if cookies.length = 0 then [Response.messageOnly "No cookies provided for import"]
  else (bulkDeliver importMessage cookies.length arr).sent

/-- The spec's `BulkResult` shape (§4.3):
`{ totalCount, successCount, failureCount, perItem }`. -/
structure SpecBulkResult where
  totalCount : Nat
  successCount : Nat
  failureCount : Nat
  perItem : List ItemResult
deriving DecidableEq, Repr

/-- Abstraction of a handler response as the spec's `BulkResult`, following
the spec's words: an aggregated `{message, results}` response carries its
`results` as `perItem` with the success/failure counts the message was
built from, a plain success message (the empty-input short-circuit) is the
zero-count summary, and an error response is no bulk result at all. -/
def specBulkResultOfResponse : Response → Option SpecBulkResult
  | Response.error _ => Option.none
  | Response.messageOnly _ => Option.some ⟨0, 0, 0, []⟩
  | Response.bulk _ rs =>
      Option.some ⟨rs.length, (rs.filter (fun r => r.success)).length,
        (rs.filter (fun r => !r.success)).length, rs⟩

/-- The success branch of the `getCookies` handler in `src/background.ts`:
```
const cookiesWithUrl = (cookies || []).map(cookie => ({
  ...cookie,
  url: getCookieUrl(cookie)
}));
sendResponse({ cookies: cookiesWithUrl });
```
-/
def getCookiesResponse (cookies : List Cookie) : List Cookie :=
  cookies.map fun c => { c with url := Option.some (getCookieUrl c) }

/-! ### Basic string lemmas for the embedding -/

theorem str_data_append (s t : String) : (s ++ t).data = s.data ++ t.data := by
  cases s; cases t; rfl

theorem str_data_empty : ("" : String).data = [] := rfl

theorem str_ext {s t : String} (h : s.data = t.data) : s = t := by
  cases s; cases t; exact congrArg String.mk h

theorem dot_append_data (d : String) : ("." ++ d).data = '.' :: d.data := by
  cases d; rfl

theorem jsStartsWithDot_dot_append (d : String) : jsStartsWithDot ("." ++ d) = true := by
  simp [jsStartsWithDot, dot_append_data]

/-- The shape of every URL produced by `getCookieUrl`: scheme selected by
`secure`, host equal to the domain or the domain with a dot prepended,
followed by the record's path. -/
theorem getCookieUrl_shape (c : Cookie) :
    ∃ host, getCookieUrl c = (if c.secure then "https://" else "http://") ++ host ++ c.path
      ∧ (host = c.domain ∨ host = "." ++ c.domain)
      ∧ jsStartsWithDot host = true := by
  by_cases h : jsStartsWithDot c.domain
  · exact ⟨c.domain, by simp [getCookieUrl, h], Or.inl rfl, h⟩
  · exact ⟨"." ++ c.domain, by simp [getCookieUrl, h], Or.inr rfl,
      jsStartsWithDot_dot_append c.domain⟩

/-- On an empty domain `getCookieUrl` returns `<scheme>://.` followed by
the path. -/
theorem getCookieUrl_empty_domain (c : Cookie) (h : c.domain = "") :
    getCookieUrl c = (if c.secure then "https://" else "http://") ++ "." ++ c.path := by
  have hsw : jsStartsWithDot "" = false := rfl
  apply str_ext
  simp [getCookieUrl, h, hsw, str_data_append, str_data_empty]

/-! ### The fan-in property of a bulk run -/

/-- Characterization of a partial bulk run: after processing `cs` callbacks
the counter has advanced by `cs.length`, the outcomes were appended in
arrival order, and the aggregate was sent exactly if the counter reached
`total` during `cs`. -/
theorem bulkRun_go (mkMsg : Nat → Nat → Nat → String) (total : Nat)
    (cs : List ItemResult) :
    ∀ st : BulkState, st.completed + cs.length ≤ total →
      List.foldl (bulkStep mkMsg total) st cs =
        ⟨st.completed + cs.length, st.results ++ cs,
          st.sent ++ (if st.completed + cs.length = total ∧ cs ≠ [] then
            [mkAggregate mkMsg total (st.results ++ cs)] else [])⟩ := by
  induction cs with
  | nil =>
    intro st _
    simp
  | cons c cs ih =>
    intro st h
    rw [List.length_cons] at h
    simp only [List.foldl_cons]
    by_cases hfire : st.completed + 1 = total
    · have hcs : cs = [] := by
        have : cs.length = 0 := by omega
        exact List.length_eq_zero.mp this
      subst hcs
      simp [bulkStep, hfire]
    · have step_eq : bulkStep mkMsg total st c =
          ⟨st.completed + 1, st.results ++ [c], st.sent⟩ := by
        simp [bulkStep, hfire]
      rw [step_eq, ih ⟨st.completed + 1, st.results ++ [c], st.sent⟩ (by simp; omega)]
      by_cases hnil : cs = []
      · subst hnil
        simp [hfire]
      · dsimp only
        have harith : st.completed + 1 + cs.length = st.completed + (cs.length + 1) := by
          omega
        rw [harith]
        simp [hnil, List.append_assoc]

/-- A complete bulk run over `n ≥ 1` callbacks sends exactly the one
aggregate, built from the full outcome list. -/
theorem bulkDeliver_spec (mkMsg : Nat → Nat → Nat → String)
    (arr : List ItemResult) (harr : arr ≠ []) :
    bulkDeliver mkMsg arr.length arr =
      ⟨arr.length, arr, [mkAggregate mkMsg arr.length arr]⟩ := by
  have := bulkRun_go mkMsg arr.length arr ⟨0, [], []⟩ (by simp)
  simpa [bulkDeliver, harr] using this

/-- While callbacks are still outstanding (`k < total` processed) nothing
has been sent. -/
theorem bulkDeliver_partial (mkMsg : Nat → Nat → Nat → String) (total : Nat)
    (arr : List ItemResult) (k : Nat) (hk : k < total) :
    (bulkDeliver mkMsg total (arr.take k)).sent = [] := by
  have hlen : (arr.take k).length ≤ k := by
    simp [List.length_take]
  have hgo := bulkRun_go mkMsg total (arr.take k) ⟨0, [], []⟩ (by dsimp only; omega)
  rw [bulkDeliver, hgo]
  dsimp only
  have hcond : ¬(0 + (arr.take k).length = total ∧ arr.take k ≠ []) := by
    rintro ⟨h1, _⟩
    omega
  rw [if_neg hcond]
  rfl

/-- Filtering a list by a Bool predicate and by its negation partitions it. -/
theorem length_filter_add_length_filter_not {α : Type} (p : α → Bool) (l : List α) :
    (l.filter p).length + (l.filter (fun a => !p a)).length = l.length := by
  induction l with
  | nil => simp
  | cons a l ih =>
    by_cases h : p a <;> simp [List.filter, h] <;> omega

/-- With a non-empty cookie list and all callbacks arrived, the
`deleteAllCookies` handler sends exactly the one aggregate. -/
theorem deleteAllResponses_full (cookies : List Cookie) (arr : List ItemResult)
    (hne : cookies ≠ []) (hlen : arr.length = cookies.length) :
    deleteAllResponses cookies arr = [mkAggregate deleteMessage cookies.length arr] := by
  have hn0 : cookies.length ≠ 0 := fun h0 => hne (List.length_eq_zero.mp h0)
  have harrne : arr ≠ [] := by
    intro h
    subst h
    simp at hlen
    exact hn0 hlen.symm
  rw [deleteAllResponses, if_neg hn0, ← hlen, bulkDeliver_spec deleteMessage arr harrne]

/-- With a non-empty import list and all callbacks arrived, the
`importCookies` handler sends exactly the one aggregate. -/
theorem importResponses_full (cookies : List Cookie) (arr : List ItemResult)
    (hne : cookies ≠ []) (hlen : arr.length = cookies.length) :
    importResponses cookies arr = [mkAggregate importMessage cookies.length arr] := by
  have hn0 : cookies.length ≠ 0 := fun h0 => hne (List.length_eq_zero.mp h0)
  have harrne : arr ≠ [] := by
    intro h
    subst h
    simp at hlen
    exact hn0 hlen.symm
  rw [importResponses, if_neg hn0, ← hlen, bulkDeliver_spec importMessage arr harrne]

/-! ### Claims -/

/-- C1: for every bulk operation (`deleteAllCookies` over N ≥ 1 records,
`importCookies` over N ≥ 1 records) and every arrival order of the N
independent callbacks (any permutation of the per-record outcomes, with any
number of failures), the aggregated result is delivered exactly once, and
never while fewer than N callbacks have completed; a failing record neither
blocks nor duplicates the aggregation and no partial result is delivered. -/
theorem claim_C1_bulk_delivered_exactly_once
    (cookies : List Cookie) (bd : RemoveBackend) (bs : SetBackend) (fb : String)
    (arrD arrI : List ItemResult)
    (hne : cookies ≠ [])
    (hD : arrD.Perm (cookies.map (deleteOutcome bd)))
    (hI : arrI.Perm (cookies.map (importOutcome bs fb))) :
    (deleteAllResponses cookies arrD).length = 1
    ∧ (∀ k, k < cookies.length →
        (bulkDeliver deleteMessage cookies.length (arrD.take k)).sent = [])
    ∧ (importResponses cookies arrI).length = 1
    ∧ (∀ k, k < cookies.length →
        (bulkDeliver importMessage cookies.length (arrI.take k)).sent = []) := by
  have hlD : arrD.length = cookies.length := by simpa using hD.length_eq
  have hlI : arrI.length = cookies.length := by simpa using hI.length_eq
  refine ⟨?_, ?_, ?_, ?_⟩
  · rw [deleteAllResponses_full cookies arrD hne hlD]
    rfl
  · intro k hk
    exact bulkDeliver_partial deleteMessage cookies.length arrD k hk
  · rw [importResponses_full cookies arrI hne hlI]
    rfl
  · intro k hk
    exact bulkDeliver_partial importMessage cookies.length arrI k hk

/-- Witness for C1 at a concrete two-record run where the backend fails one
record and the callbacks arrive in reverse order. -/
theorem claim_C1_bulk_delivered_exactly_once_witness :
    (([⟨"a", "1", "d", "/", false, false, Option.none, Option.none, Option.none⟩,
       ⟨"b", "2", "d", "/", false, false, Option.none, Option.none, Option.none⟩] :
        List Cookie) ≠ []
     ∧ ([⟨false, "b", Option.some "Not found or could not delete"⟩,
         ⟨true, "a", Option.none⟩] : List ItemResult).Perm
        (([⟨"a", "1", "d", "/", false, false, Option.none, Option.none, Option.none⟩,
           ⟨"b", "2", "d", "/", false, false, Option.none, Option.none, Option.none⟩] :
          List Cookie).map
          (deleteOutcome (fun args =>
            if args.name = "a" then Option.some ⟨args.url, args.name⟩ else Option.none)))
     ∧ ([⟨false, "b", Option.some "boom"⟩, ⟨true, "a", Option.none⟩] :
          List ItemResult).Perm
        (([⟨"a", "1", "d", "/", false, false, Option.none, Option.none, Option.none⟩,
           ⟨"b", "2", "d", "/", false, false, Option.none, Option.none, Option.none⟩] :
          List Cookie).map
          (importOutcome (fun args =>
            if args.name = "a" then
              (Option.some ⟨args.name, args.value, "d", "/", false, false,
                Option.none, Option.none, Option.none⟩, Option.none)
            else (Option.none, Option.some "boom")) "tab.example")))
    ∧ ((deleteAllResponses
          [⟨"a", "1", "d", "/", false, false, Option.none, Option.none, Option.none⟩,
           ⟨"b", "2", "d", "/", false, false, Option.none, Option.none, Option.none⟩]
          [⟨false, "b", Option.some "Not found or could not delete"⟩,
           ⟨true, "a", Option.none⟩]).length = 1
       ∧ (∀ k, k < 2 →
           (bulkDeliver deleteMessage 2
             (([⟨false, "b", Option.some "Not found or could not delete"⟩,
                ⟨true, "a", Option.none⟩] : List ItemResult).take k)).sent = [])
       ∧ (importResponses
            [⟨"a", "1", "d", "/", false, false, Option.none, Option.none, Option.none⟩,
             ⟨"b", "2", "d", "/", false, false, Option.none, Option.none, Option.none⟩]
            [⟨false, "b", Option.some "boom"⟩, ⟨true, "a", Option.none⟩]).length = 1
       ∧ (∀ k, k < 2 →
           (bulkDeliver importMessage 2
             (([⟨false, "b", Option.some "boom"⟩, ⟨true, "a", Option.none⟩] :
                List ItemResult).take k)).sent = [])) :=
  ⟨⟨by decide, by decide, by decide⟩,
    claim_C1_bulk_delivered_exactly_once
      [⟨"a", "1", "d", "/", false, false, Option.none, Option.none, Option.none⟩,
       ⟨"b", "2", "d", "/", false, false, Option.none, Option.none, Option.none⟩]
      (fun args => if args.name = "a" then Option.some ⟨args.url, args.name⟩ else Option.none)
      (fun args =>
        if args.name = "a" then
          (Option.some ⟨args.name, args.value, "d", "/", false, false,
            Option.none, Option.none, Option.none⟩, Option.none)
        else (Option.none, Option.some "boom"))
      "tab.example"
      [⟨false, "b", Option.some "Not found or could not delete"⟩, ⟨true, "a", Option.none⟩]
      [⟨false, "b", Option.some "boom"⟩, ⟨true, "a", Option.none⟩]
      (by decide) (by decide) (by decide)⟩

/-- C2: for every bulk operation over N input records, the delivered
result, viewed as the spec's `BulkResult`, satisfies
`successCount + failureCount == totalCount == N`, its `perItem` list has
length exactly N, and the per-item outcomes are a permutation of the
per-record outcomes of the inputs — every input record appears exactly
once, though not necessarily in input order. -/
theorem claim_C2_bulk_result_invariants
    (cookies : List Cookie) (bd : RemoveBackend) (bs : SetBackend) (fb : String)
    (arrD arrI : List ItemResult)
    (hne : cookies ≠ [])
    (hD : arrD.Perm (cookies.map (deleteOutcome bd)))
    (hI : arrI.Perm (cookies.map (importOutcome bs fb))) :
    (∃ brD, (deleteAllResponses cookies arrD).map specBulkResultOfResponse =
        [Option.some brD]
      ∧ brD.totalCount = cookies.length
      ∧ brD.successCount + brD.failureCount = brD.totalCount
      ∧ brD.perItem.length = cookies.length
      ∧ brD.perItem.Perm (cookies.map (deleteOutcome bd)))
    ∧ (∃ brI, (importResponses cookies arrI).map specBulkResultOfResponse =
        [Option.some brI]
      ∧ brI.totalCount = cookies.length
      ∧ brI.successCount + brI.failureCount = brI.totalCount
      ∧ brI.perItem.length = cookies.length
      ∧ brI.perItem.Perm (cookies.map (importOutcome bs fb))) := by
  have hlD : arrD.length = cookies.length := by simpa using hD.length_eq
  have hlI : arrI.length = cookies.length := by simpa using hI.length_eq
  constructor
  · refine ⟨⟨arrD.length, (arrD.filter (fun r => r.success)).length,
      (arrD.filter (fun r => !r.success)).length, arrD⟩, ?_, hlD, ?_, hlD, hD⟩
    · rw [deleteAllResponses_full cookies arrD hne hlD]
      rfl
    · exact length_filter_add_length_filter_not _ arrD
  · refine ⟨⟨arrI.length, (arrI.filter (fun r => r.success)).length,
      (arrI.filter (fun r => !r.success)).length, arrI⟩, ?_, hlI, ?_, hlI, hI⟩
    · rw [importResponses_full cookies arrI hne hlI]
      rfl
    · exact length_filter_add_length_filter_not _ arrI

/-- Witness for C2 at a concrete two-record run with one failure and
reversed callback arrival. -/
theorem claim_C2_bulk_result_invariants_witness :
    (([⟨"a", "1", "d", "/", false, false, Option.none, Option.none, Option.none⟩,
       ⟨"b", "2", "d", "/", false, false, Option.none, Option.none, Option.none⟩] :
        List Cookie) ≠ []
     ∧ ([⟨false, "b", Option.some "Not found or could not delete"⟩,
         ⟨true, "a", Option.none⟩] : List ItemResult).Perm
        (([⟨"a", "1", "d", "/", false, false, Option.none, Option.none, Option.none⟩,
           ⟨"b", "2", "d", "/", false, false, Option.none, Option.none, Option.none⟩] :
          List Cookie).map
          (deleteOutcome (fun args =>
            if args.name = "a" then Option.some ⟨args.url, args.name⟩ else Option.none)))
     ∧ ([⟨false, "b", Option.some "boom"⟩, ⟨true, "a", Option.none⟩] :
          List ItemResult).Perm
        (([⟨"a", "1", "d", "/", false, false, Option.none, Option.none, Option.none⟩,
           ⟨"b", "2", "d", "/", false, false, Option.none, Option.none, Option.none⟩] :
          List Cookie).map
          (importOutcome (fun args =>
            if args.name = "a" then
              (Option.some ⟨args.name, args.value, "d", "/", false, false,
                Option.none, Option.none, Option.none⟩, Option.none)
            else (Option.none, Option.some "boom")) "tab.example")))
    ∧ ((∃ brD, (deleteAllResponses
          [⟨"a", "1", "d", "/", false, false, Option.none, Option.none, Option.none⟩,
           ⟨"b", "2", "d", "/", false, false, Option.none, Option.none, Option.none⟩]
          [⟨false, "b", Option.some "Not found or could not delete"⟩,
           ⟨true, "a", Option.none⟩]).map specBulkResultOfResponse = [Option.some brD]
        ∧ brD.totalCount = 2
        ∧ brD.successCount + brD.failureCount = brD.totalCount
        ∧ brD.perItem.length = 2
        ∧ brD.perItem.Perm
            (([⟨"a", "1", "d", "/", false, false, Option.none, Option.none, Option.none⟩,
               ⟨"b", "2", "d", "/", false, false, Option.none, Option.none, Option.none⟩] :
              List Cookie).map
              (deleteOutcome (fun args =>
                if args.name = "a" then Option.some ⟨args.url, args.name⟩
                else Option.none))))
      ∧ (∃ brI, (importResponses
          [⟨"a", "1", "d", "/", false, false, Option.none, Option.none, Option.none⟩,
           ⟨"b", "2", "d", "/", false, false, Option.none, Option.none, Option.none⟩]
          [⟨false, "b", Option.some "boom"⟩,
           ⟨true, "a", Option.none⟩]).map specBulkResultOfResponse = [Option.some brI]
        ∧ brI.totalCount = 2
        ∧ brI.successCount + brI.failureCount = brI.totalCount
        ∧ brI.perItem.length = 2
        ∧ brI.perItem.Perm
            (([⟨"a", "1", "d", "/", false, false, Option.none, Option.none, Option.none⟩,
               ⟨"b", "2", "d", "/", false, false, Option.none, Option.none, Option.none⟩] :
              List Cookie).map
              (importOutcome (fun args =>
                if args.name = "a" then
                  (Option.some ⟨args.name, args.value, "d", "/", false, false,
                    Option.none, Option.none, Option.none⟩, Option.none)
                else (Option.none, Option.some "boom")) "tab.example")))) :=
  ⟨⟨by decide, by decide, by decide⟩,
    claim_C2_bulk_result_invariants
      [⟨"a", "1", "d", "/", false, false, Option.none, Option.none, Option.none⟩,
       ⟨"b", "2", "d", "/", false, false, Option.none, Option.none, Option.none⟩]
      (fun args => if args.name = "a" then Option.some ⟨args.url, args.name⟩ else Option.none)
      (fun args =>
        if args.name = "a" then
          (Option.some ⟨args.name, args.value, "d", "/", false, false,
            Option.none, Option.none, Option.none⟩, Option.none)
        else (Option.none, Option.some "boom"))
      "tab.example"
      [⟨false, "b", Option.some "Not found or could not delete"⟩, ⟨true, "a", Option.none⟩]
      [⟨false, "b", Option.some "boom"⟩, ⟨true, "a", Option.none⟩]
      (by decide) (by decide) (by decide)⟩

/-- C3 counterexample: at the claim's own example record, with
`expirationDate = 0`, the serializer omits the `Expires` attribute (the
source tests `if (selectedCookieForCopy.expirationDate)`, and `0` is falsy
in JS), so the output is not the string the claim requires. -/
theorem claim_C3_counterexample :
    serializeSetCookie
      ⟨"id", "v", "x.com", "/", true, true, Option.some SameSite.lax,
        Option.some 0, Option.none⟩
      = "id=v; Domain=x.com; Path=/; Secure; HttpOnly; SameSite=Lax"
    ∧ serializeSetCookie
      ⟨"id", "v", "x.com", "/", true, true, Option.some SameSite.lax,
        Option.some 0, Option.none⟩
      ≠ "id=v; Domain=x.com; Path=/; Secure; HttpOnly; SameSite=Lax; Expires=Thu, 01 Jan 1970 00:00:00 GMT" :=
  ⟨by decide, by decide⟩

/-- C3 amended: `serialize` produces `<name>=<url-encoded value>` followed,
in this fixed order, by `; Domain=<domain>` iff the domain is non-empty,
`; Path=<path>` iff the path is non-empty, `; Secure` iff secure,
`; HttpOnly` iff httpOnly, `; SameSite=<first letter uppercased>` iff
sameSite is present, and `; Expires=<UTC date string of
expirationDate * 1000 ms>` iff expirationDate is present AND non-zero; at
the claim's example record (expirationDate 0) the output therefore ends
after `SameSite=Lax`. -/
theorem claim_C3_amended_serializer_shape :
    (∀ c : Cookie,
      serializeSetCookie c =
        c.name ++ "=" ++ encodeURIComponent c.value
        ++ (if c.domain = "" then "" else "; Domain=" ++ c.domain)
        ++ (if c.path = "" then "" else "; Path=" ++ c.path)
        ++ (if c.secure then "; Secure" else "")
        ++ (if c.httpOnly then "; HttpOnly" else "")
        ++ (match c.sameSite with
            | Option.none => ""
            | Option.some ss => "; SameSite=" ++ capitalizeFirst (sameSiteStr ss))
        ++ (match c.expirationDate with
            | Option.none => ""
            | Option.some e =>
                if e = 0 then "" else "; Expires=" ++ jsDateToUTCString (e * 1000)))
    ∧ serializeSetCookie
        ⟨"id", "v", "x.com", "/", true, true, Option.some SameSite.lax,
          Option.some 0, Option.none⟩
        = "id=v; Domain=x.com; Path=/; Secure; HttpOnly; SameSite=Lax" := by
  constructor
  · intro c
    apply str_ext
    cases hss : c.sameSite <;> cases hed : c.expirationDate <;>
      simp only [serializeSetCookie, hss, hed] <;>
      split_ifs <;>
      simp [str_data_append, str_data_empty]
  · decide

/-- C4: `deleteAllCookies` applied to an empty cookie set resolves
immediately (before any callback) with the zero-count success summary —
a plain success message whose `BulkResult` abstraction is
`{totalCount: 0, successCount: 0, failureCount: 0, perItem: []}` — and
issues no remove call to the Storage Backend. -/
theorem claim_C4_deleteAll_empty_short_circuit :
    deleteAllResponses [] [] = [Response.messageOnly "No cookies to delete"]
    ∧ specBulkResultOfResponse (Response.messageOnly "No cookies to delete") =
        Option.some ⟨0, 0, 0, []⟩
    ∧ deleteAllCalls [] = [] :=
  ⟨rfl, rfl, rfl⟩

/-- C5: for every `importCookies` input record: an empty domain is replaced
by the fallback domain before the backend set call is issued (the fallback
is substituted into the URL inference, and the call's `domain` field is
left unset); an empty path defaults to `/`; the write URL is derived via
URL inference when the record has no explicit url; and a record whose set
call the backend rejects is marked failed in its own per-item result while
the delivered per-item list remains exactly the per-record outcomes of all
siblings. -/
theorem claim_C5_import_per_record
    (fb : String) (c : Cookie) :
    (c.domain = "" →
      (importSetCall fb c).url = getCookieUrl { c with domain := fb }
      ∧ (importSetCall fb c).domain = Option.none)
    ∧ (c.path = "" → (importSetCall fb c).path = "/")
    ∧ (c.url = Option.none →
      (importSetCall fb c).url =
        getCookieUrl { c with domain := if c.domain = "" then fb else c.domain })
    ∧ (∀ (bs : SetBackend) (cookies : List Cookie) (arr : List ItemResult),
        arr.Perm (cookies.map (importOutcome bs fb)) → cookies ≠ [] →
        ∃ m results, importResponses cookies arr = [Response.bulk m results]
          ∧ results.Perm (cookies.map (importOutcome bs fb))
          ∧ ∀ c2 ∈ cookies, (bs (importSetCall fb c2)).1 = Option.none →
              importOutcome bs fb c2 =
                ⟨false, c2.name,
                  Option.some (((bs (importSetCall fb c2)).2).getD "Unknown error")⟩) := by
  refine ⟨?_, ?_, ?_, ?_⟩
  · intro h
    constructor
    · simp [importSetCall, h]
    · simp [importSetCall, h]
  · intro h
    simp [importSetCall, h]
  · intro _
    rfl
  · intro bs cookies arr hperm hne
    have hlen : arr.length = cookies.length := by simpa using hperm.length_eq
    refine ⟨importMessage cookies.length ((arr.filter (fun r => r.success)).length)
      ((arr.filter (fun r => !r.success)).length), arr, ?_, hperm, ?_⟩
    · rw [importResponses_full cookies arr hne hlen]
      rfl
    · intro c2 _ hnone
      cases hbs : bs (importSetCall fb c2) with
      | mk fst snd =>
        rw [hbs] at hnone
        simp only at hnone
        subst hnone
        simp [importOutcome, hbs]

/-- Witness for C5 at a record with empty domain, empty path and no
explicit url, imported together with a sibling that succeeds, under a
backend that rejects the empty-domain record. -/
theorem claim_C5_import_per_record_witness :
    ((⟨"a", "1", "", "", false, false, Option.none, Option.none, Option.none⟩ :
        Cookie).domain = ""
      ∧ ((importSetCall "tab.example"
            ⟨"a", "1", "", "", false, false, Option.none, Option.none, Option.none⟩).url =
          getCookieUrl ⟨"a", "1", "tab.example", "", false, false,
            Option.none, Option.none, Option.none⟩
        ∧ (importSetCall "tab.example"
            ⟨"a", "1", "", "", false, false, Option.none, Option.none, Option.none⟩).domain =
          Option.none))
    ∧ (importSetCall "tab.example"
        ⟨"a", "1", "", "", false, false, Option.none, Option.none, Option.none⟩).path = "/"
    ∧ (∃ m results,
        importResponses
          [⟨"a", "1", "", "", false, false, Option.none, Option.none, Option.none⟩,
           ⟨"b", "2", "d", "/", false, false, Option.none, Option.none, Option.none⟩]
          [⟨false, "a", Option.some "Unknown error"⟩, ⟨true, "b", Option.none⟩]
          = [Response.bulk m results]
        ∧ results.Perm
            (([⟨"a", "1", "", "", false, false, Option.none, Option.none, Option.none⟩,
               ⟨"b", "2", "d", "/", false, false, Option.none, Option.none, Option.none⟩] :
              List Cookie).map
              (importOutcome (fun args =>
                if args.name = "b" then
                  (Option.some ⟨args.name, args.value, "d", "/", false, false,
                    Option.none, Option.none, Option.none⟩, Option.none)
                else (Option.none, Option.none)) "tab.example"))
        ∧ ∀ c2 ∈ ([⟨"a", "1", "", "", false, false, Option.none, Option.none, Option.none⟩,
             ⟨"b", "2", "d", "/", false, false, Option.none, Option.none, Option.none⟩] :
              List Cookie),
            ((fun args =>
                if args.name = "b" then
                  (Option.some ⟨args.name, args.value, "d", "/", false, false,
                    Option.none, Option.none, Option.none⟩, Option.none)
                else (Option.none, Option.none) : SetBackend)
              (importSetCall "tab.example" c2)).1 = Option.none →
            importOutcome (fun args =>
                if args.name = "b" then
                  (Option.some ⟨args.name, args.value, "d", "/", false, false,
                    Option.none, Option.none, Option.none⟩, Option.none)
                else (Option.none, Option.none)) "tab.example" c2 =
              ⟨false, c2.name,
                Option.some ((((fun args =>
                    if args.name = "b" then
                      (Option.some ⟨args.name, args.value, "d", "/", false, false,
                        Option.none, Option.none, Option.none⟩, Option.none)
                    else (Option.none, Option.none) : SetBackend)
                  (importSetCall "tab.example" c2)).2).getD "Unknown error")⟩) :=
  ⟨⟨rfl,
    (claim_C5_import_per_record "tab.example"
      ⟨"a", "1", "", "", false, false, Option.none, Option.none, Option.none⟩).1 rfl⟩,
   (claim_C5_import_per_record "tab.example"
      ⟨"a", "1", "", "", false, false, Option.none, Option.none, Option.none⟩).2.1 rfl,
   (claim_C5_import_per_record "tab.example"
      ⟨"a", "1", "", "", false, false, Option.none, Option.none, Option.none⟩).2.2.2
     (fun args =>
        if args.name = "b" then
          (Option.some ⟨args.name, args.value, "d", "/", false, false,
            Option.none, Option.none, Option.none⟩, Option.none)
        else (Option.none, Option.none))
     [⟨"a", "1", "", "", false, false, Option.none, Option.none, Option.none⟩,
      ⟨"b", "2", "d", "/", false, false, Option.none, Option.none, Option.none⟩]
     [⟨false, "a", Option.some "Unknown error"⟩, ⟨true, "b", Option.none⟩]
     (by decide) (by decide)⟩

/-- C6 counterexample: for a record with empty domain, `getCookieUrl` does
not signal any `InvalidRecord` condition — it has no error branch at all
and returns the ordinary scheme-host-path string with host `"."`. -/
theorem claim_C6_counterexample :
    getCookieUrl ⟨"n", "", "", "/p", false, false, Option.none, Option.none, Option.none⟩
      = "http://" ++ "." ++ "/p"
    ∧ getCookieUrl ⟨"n", "", "", "/p", false, false, Option.none, Option.none, Option.none⟩
      = "http://./p" :=
  ⟨by decide, by decide⟩

/-- C6 amended: URL inference is deterministic and total; on any record
with non-empty domain and non-empty path it returns the structured origin
URL and never fails, and on a record with empty domain it does not signal
an error but returns `<scheme>://.` followed by the path. -/
theorem claim_C6_amended_inference_total
    : (∀ c : Cookie, c.domain ≠ "" → c.path ≠ "" →
        ∃ host, getCookieUrl c =
            (if c.secure then "https://" else "http://") ++ host ++ c.path
          ∧ (host = c.domain ∨ host = "." ++ c.domain))
    ∧ (∀ c : Cookie, c.domain = "" →
        getCookieUrl c = (if c.secure then "https://" else "http://") ++ "." ++ c.path) := by
  constructor
  · intro c _ _
    obtain ⟨host, h1, h2, _⟩ := getCookieUrl_shape c
    exact ⟨host, h1, h2⟩
  · intro c h
    exact getCookieUrl_empty_domain c h

/-- Witness for C6 amended at a non-empty record and at an empty-domain
record. -/
theorem claim_C6_amended_inference_total_witness :
    (("example.com" : String) ≠ "" ∧ ("/a" : String) ≠ ""
      ∧ ∃ host, getCookieUrl ⟨"n", "", "example.com", "/a", true, false,
            Option.none, Option.none, Option.none⟩ =
          (if true then "https://" else "http://") ++ host ++ "/a"
        ∧ (host = "example.com" ∨ host = "." ++ "example.com"))
    ∧ getCookieUrl ⟨"n", "", "", "/p", false, false, Option.none, Option.none, Option.none⟩
      = (if false then "https://" else "http://") ++ "." ++ "/p" :=
  ⟨⟨by decide, by decide,
    claim_C6_amended_inference_total.1
      ⟨"n", "", "example.com", "/a", true, false, Option.none, Option.none, Option.none⟩
      (by decide) (by decide)⟩,
   claim_C6_amended_inference_total.2
     ⟨"n", "", "", "/p", false, false, Option.none, Option.none, Option.none⟩ rfl⟩

/-- C7: for every record with non-empty domain and path, `getCookieUrl`
returns `<scheme>://<host><path>` where the scheme is `https` exactly when
secure is true and `http` otherwise, and the host is the record's domain up
to leading-dot normalization. -/
theorem claim_C7_inferred_url_shape (c : Cookie)
    (_hd : c.domain ≠ "") (_hp : c.path ≠ "") :
    ∃ host, getCookieUrl c =
        (if c.secure then "https://" else "http://") ++ host ++ c.path
      ∧ (host = c.domain ∨ host = "." ++ c.domain) := by
  obtain ⟨host, h1, h2, _⟩ := getCookieUrl_shape c
  exact ⟨host, h1, h2⟩

/-- Witness for C7 at the claim's example
`{domain: "example.com", path: "/a", secure: true}`. -/
theorem claim_C7_inferred_url_shape_witness :
    (("example.com" : String) ≠ "" ∧ ("/a" : String) ≠ "")
    ∧ ∃ host, getCookieUrl ⟨"n", "", "example.com", "/a", true, false,
          Option.none, Option.none, Option.none⟩ =
        (if true then "https://" else "http://") ++ host ++ "/a"
      ∧ (host = "example.com" ∨ host = "." ++ "example.com") :=
  ⟨⟨by decide, by decide⟩,
   claim_C7_inferred_url_shape
     ⟨"n", "", "example.com", "/a", true, false, Option.none, Option.none, Option.none⟩
     (by decide) (by decide)⟩

/-- C8: for every non-empty domain `d` and any path/secure combination,
inference on the leading-dot domain `"." ++ d` and on the bare domain `d`
yields URLs with the same scheme and path whose hosts agree after stripping
leading dots — equivalent reachable URLs. -/
theorem claim_C8_leading_dot_equivalence
    (d p : String) (sec : Bool) (nm v : String) (ho : Bool)
    (ss : Option SameSite) (ed : Option Int) (u : Option String)
    (_hd : d ≠ "") :
    ∃ scheme host1 host2,
      getCookieUrl ⟨nm, v, "." ++ d, p, sec, ho, ss, ed, u⟩ = scheme ++ host1 ++ p
      ∧ getCookieUrl ⟨nm, v, d, p, sec, ho, ss, ed, u⟩ = scheme ++ host2 ++ p
      ∧ scheme = (if sec then "https://" else "http://")
      ∧ host1.data.dropWhile (fun ch => ch = '.') =
          host2.data.dropWhile (fun ch => ch = '.') := by
  refine ⟨if sec then "https://" else "http://", "." ++ d,
    if jsStartsWithDot d then d else "." ++ d, ?_, rfl, rfl, ?_⟩
  · simp [getCookieUrl, jsStartsWithDot_dot_append]
  · by_cases hsd : jsStartsWithDot d
    · rw [if_pos hsd, dot_append_data]
      simp [List.dropWhile_cons]
    · rw [if_neg hsd]

/-- Witness for C8 at the claim's example
`{domain: ".example.com", path: "/", secure: false}`. -/
theorem claim_C8_leading_dot_equivalence_witness :
    ("example.com" : String) ≠ ""
    ∧ ∃ scheme host1 host2,
      getCookieUrl ⟨"n", "", "." ++ "example.com", "/", false, false,
          Option.none, Option.none, Option.none⟩ = scheme ++ host1 ++ "/"
      ∧ getCookieUrl ⟨"n", "", "example.com", "/", false, false,
          Option.none, Option.none, Option.none⟩ = scheme ++ host2 ++ "/"
      ∧ scheme = (if false then "https://" else "http://")
      ∧ host1.data.dropWhile (fun ch => ch = '.') =
          host2.data.dropWhile (fun ch => ch = '.') :=
  ⟨by decide,
   claim_C8_leading_dot_equivalence "example.com" "/" false "n" "" false
     Option.none Option.none Option.none (by decide)⟩

/-- C9 counterexample: the `getCookies` handler does not return the records
read from the Storage Backend verbatim — it overwrites the `url` field of
each record with the inferred URL before responding. -/
theorem claim_C9_counterexample :
    getCookiesResponse
      [⟨"a", "", "d", "/", false, false, Option.none, Option.none, Option.none⟩]
      ≠ [⟨"a", "", "d", "/", false, false, Option.none, Option.none, Option.none⟩]
    ∧ getCookiesResponse
      [⟨"a", "", "d", "/", false, false, Option.none, Option.none, Option.none⟩]
      = [⟨"a", "", "d", "/", false, false, Option.none, Option.none,
          Option.some "http://.d/"⟩] :=
  ⟨by decide, by decide⟩

/-- C9 amended: every record in the `getCookies` success response is the
backend's record with all fields preserved verbatim except `url`, which is
set to the inferred URL of that record; no record is added or removed. -/
theorem claim_C9_amended_list_verbatim_but_url (cookies : List Cookie) :
    List.Forall₂ (fun c r : Cookie =>
      r.name = c.name ∧ r.value = c.value ∧ r.domain = c.domain ∧ r.path = c.path
      ∧ r.secure = c.secure ∧ r.httpOnly = c.httpOnly ∧ r.sameSite = c.sameSite
      ∧ r.expirationDate = c.expirationDate
      ∧ r.url = Option.some (getCookieUrl c))
      cookies (getCookiesResponse cookies) := by
  induction cookies with
  | nil => simp [getCookiesResponse]
  | cons c cs ih =>
    exact List.Forall₂.cons (by simp) ih

/-- C10: `getCookieUrl` is total over all records with no error branch —
for every record, empty domain included, it returns
`(secure ? https:// : http://) ++ (domain if it starts with a dot else
"." ++ domain) ++ path`; hence every inferred host begins with a leading
dot, and an empty domain yields `<scheme>://.` ++ path rather than an
error. -/
theorem claim_C10_getCookieUrl_total (c : Cookie) :
    getCookieUrl c = (if c.secure then "https://" else "http://")
        ++ (if jsStartsWithDot c.domain then c.domain else "." ++ c.domain) ++ c.path
    ∧ (∃ host, getCookieUrl c =
        (if c.secure then "https://" else "http://") ++ host ++ c.path
      ∧ jsStartsWithDot host = true)
    ∧ (c.domain = "" →
        getCookieUrl c = (if c.secure then "https://" else "http://") ++ "." ++ c.path) := by
  refine ⟨rfl, ?_, ?_⟩
  · obtain ⟨host, h1, _, h3⟩ := getCookieUrl_shape c
    exact ⟨host, h1, h3⟩
  · intro h
    exact getCookieUrl_empty_domain c h

/-- Witness for C10 at an empty-domain record. -/
theorem claim_C10_getCookieUrl_total_witness :
    getCookieUrl ⟨"n", "x", "", "/p", false, false, Option.none, Option.none, Option.none⟩
        = (if false then "https://" else "http://")
          ++ (if jsStartsWithDot "" then "" else "." ++ "") ++ "/p"
    ∧ (∃ host, getCookieUrl
          ⟨"n", "x", "", "/p", false, false, Option.none, Option.none, Option.none⟩ =
        (if false then "https://" else "http://") ++ host ++ "/p"
      ∧ jsStartsWithDot host = true)
    ∧ getCookieUrl ⟨"n", "x", "", "/p", false, false, Option.none, Option.none, Option.none⟩
        = (if false then "https://" else "http://") ++ "." ++ "/p" :=
  ⟨(claim_C10_getCookieUrl_total
      ⟨"n", "x", "", "/p", false, false, Option.none, Option.none, Option.none⟩).1,
   (claim_C10_getCookieUrl_total
      ⟨"n", "x", "", "/p", false, false, Option.none, Option.none, Option.none⟩).2.1,
   (claim_C10_getCookieUrl_total
      ⟨"n", "x", "", "/p", false, false, Option.none, Option.none, Option.none⟩).2.2 rfl⟩

end CookieJar
